import Mathlib

/-!
Verification development for the RiskAssessment client
(src/src/RiskAssessment.py), a pipeline orchestrator that uploads a
requirements document, requests a summary, extracts features, lets the
user give feedback, requires approval, and then requests a risk analysis.

Shallow embedding: the global `FeatureState` object becomes an explicit
state record threaded through each handler; each remote HTTP exchange
becomes an input of type `CallResult` describing what the network/JSON
layer produced (a parsed 2xx body, a `requests.exceptions.RequestException`
with an optional response text, or any other exception); the async
generators become pure functions returning the list of values they yield,
the updated state, and the list of HTTP requests they issued.  The
polling loop over a fixed message list is parameterized by `doneAt`, the
number of `future.done()` checks that observe the worker still running.
-/

/-- The global mutable session state (`class FeatureState`). All fields
start as `None` in the source, hence `Option String`. -/
structure FeatureState where
  srs_content : Option String
  project_summary : Option String
  feature_details : Option String
  approved_features : Option String
  deriving Repr, DecidableEq

/-- `state = FeatureState()`: fresh state with every field `None`. -/
def initState : FeatureState :=
  { srs_content := none, project_summary := none,
    feature_details := none, approved_features := none }

/-- Python truthiness of an `Optional[str]`: `None` and `""` are falsy. -/
def truthyOptStr : Option String → Bool
  | none => false
  | some s => !s.isEmpty

/-- Parsed JSON body of a 2xx `/summary/generate` response: the two
fields the code reads with `.get`, each possibly absent. -/
structure SummaryBody where
  srs_text : Option String
  project_summary : Option String
  deriving Repr, DecidableEq

/-- Parsed JSON body of a 2xx `/features/extract` or
`/features/re-evaluate` response. -/
structure FeaturesBody where
  feature_details : Option String
  deriving Repr, DecidableEq

/-- Parsed JSON body of a 2xx `/api/risks/analyze` response. -/
structure RiskBody where
  risk_analysis : Option String
  deriving Repr, DecidableEq

/-- Outcome of one HTTP exchange, as seen after `raise_for_status()` and
`.json()`: a parsed body, a `requests.exceptions.RequestException` (non-2xx
status or transport failure; `respText` is `e.response.text` when a
response object is attached), or any other exception (e.g. JSON decode). -/
inductive CallResult (α : Type) where
  | ok (body : α)
  | requestError (msg : String) (respText : Option String)
  | otherError (msg : String)
  deriving Repr, DecidableEq

/-- An HTTP request issued by the client, with the payload fields the
source puts in the JSON body. -/
inductive Request where
  | summaryGenerate (content : String) (project_name : String)
  | featuresExtract (srs_content : Option String) (project_summary : Option String)
  | featuresReEvaluate (srs_content : Option String) (project_summary : Option String)
      (previous_features : String) (user_feedback : String)
  | risksAnalyze (features : Option String) (srs_content : Option String)
      (project_summary : Option String)
  deriving Repr, DecidableEq

/-- `Path(pdf_path).stem`: final path component without its last suffix. -/
def pathStem (p : String) : String :=
  let name := (p.splitOn "/").getLastD ""
  let parts := name.splitOn "."
  match parts with
  | [] => name
  | [_] => name
  | "" :: [_] => name
  | _ => String.intercalate "." parts.dropLast

/-- Python `not s.strip()`: true iff stripping whitespace from both ends
leaves the empty string, i.e. every character is whitespace. -/
def stripEmpty (s : String) : Bool :=
  ((s.data.dropWhile Char.isWhitespace).reverse.dropWhile Char.isWhitespace).isEmpty

/-- `generate_summary_and_extract_features(pdf_path)`.
`fileRead` is the outcome of reading and base64-encoding the file (its
error branch lands in the generic `except Exception`); `sResp` and
`fResp` are the two HTTP exchanges.  Returns the updated state, the
returned string, and the requests issued. -/
def generate_summary_and_extract_features (st : FeatureState)
    (fileRead : Except String String) (pdf_path : String)
    (sResp : CallResult SummaryBody) (fResp : CallResult FeaturesBody) :
    FeatureState × String × List Request :=
  match fileRead with
  | .error e => (st, "Error: " ++ e, [])
  | .ok pdf_content =>
    let reqs0 := [Request.summaryGenerate pdf_content (pathStem pdf_path)]
    match sResp with
    | .requestError e _ => (st, "API Error: " ++ e, reqs0)
    | .otherError e => (st, "Error: " ++ e, reqs0)
    | .ok sBody =>
      let st1 : FeatureState :=
        { st with srs_content := some (sBody.srs_text.getD ""),
                  project_summary := some (sBody.project_summary.getD "") }
      let reqs1 := reqs0 ++ [Request.featuresExtract st1.srs_content st1.project_summary]
      match fResp with
      | .requestError e _ => (st1, "API Error: " ++ e, reqs1)
      | .otherError e => (st1, "Error: " ++ e, reqs1)
      | .ok fBody =>
        let fd := fBody.feature_details.getD "No features extracted"
        ({ st1 with feature_details := some fd }, fd, reqs1)

/-- `re_evaluate_features(previous_features, feedback)`.  A single HTTP
exchange; every exception is caught by the one generic handler. -/
def re_evaluate_features (st : FeatureState)
    (previous_features feedback : String) (resp : CallResult FeaturesBody) :
    FeatureState × String × List Request :=
  let reqs := [Request.featuresReEvaluate st.srs_content st.project_summary
    previous_features feedback]
  match resp with
  | .requestError e _ => (st, "Error in re-evaluation: " ++ e, reqs)
  | .otherError e => (st, "Error in re-evaluation: " ++ e, reqs)
  | .ok body =>
    let fd := body.feature_details.getD "No features re-evaluated"
    ({ st with feature_details := some fd }, fd, reqs)

/-- One value yielded by `process_documents_with_status` or
`handle_feedback_with_status`: features output, visibility of the
feedback and risk sections (`gr.update(visible=...)`), status message. -/
structure DocYield where
  features : String
  feedback_visible : Bool
  risk_visible : Bool
  status : String
  deriving Repr, DecidableEq

/-- The polling loop `for message in messages: if future.done(): break;
yield ...; await asyncio.sleep(...)`.  `doneAt` is the number of
`future.done()` checks that still see the worker running; the messages
emitted are those whose check happened before completion. -/
def pollLoop : List String → Nat → List String
  | [], _ => []
  | _ :: _, 0 => []
  | m :: ms, Nat.succ k => m :: pollLoop ms k

/-- The fixed status list of `process_documents_with_status`. -/
def process_messages : List String :=
  ["Processing document...",
   "Creating Knowledge graph...",
   "Retrieving Nodes and Edges...",
   "Thinking...",
   "Generating Response..."]

/-- `process_documents_with_status(uploaded_file)`: `uploaded_file` is
`None` or the file's name; the worker runs
`generate_summary_and_extract_features`, whose network inputs are passed
through.  Returns the yielded trace, final state and issued requests. -/
def process_documents_with_status (st : FeatureState)
    (uploaded_file : Option String) (fileRead : Except String String)
    (sResp : CallResult SummaryBody) (fResp : CallResult FeaturesBody)
    (doneAt : Nat) : List DocYield × FeatureState × List Request :=
  match uploaded_file with
  | none =>
    ([{ features := "Please upload a requirements document first.",
        feedback_visible := false, risk_visible := false, status := "" }], st, [])
  | some fname =>
    let res := generate_summary_and_extract_features st fileRead fname sResp fResp
    let polls := (pollLoop process_messages doneAt).map fun m =>
      ({ features := "", feedback_visible := false, risk_visible := false,
         status := m } : DocYield)
    (polls ++ [{ features := res.2.1, feedback_visible := true,
                 risk_visible := true, status := "Response Generated!" }],
     res.1, res.2.2)

/-- The fixed status list of `handle_feedback_with_status`. -/
def feedback_messages : List String :=
  ["Processing feedback...",
   "Analyzing feedback content...",
   "Updating feature extraction...",
   "Generating revised features..."]

/-- `handle_feedback_with_status(feedback, features)`: rejects blank
feedback locally, otherwise runs `re_evaluate_features` on the worker. -/
def handle_feedback_with_status (st : FeatureState)
    (feedback features : String) (resp : CallResult FeaturesBody)
    (doneAt : Nat) : List DocYield × FeatureState × List Request :=
  if stripEmpty feedback then
    ([{ features := "Please provide feedback before submitting.",
        feedback_visible := true, risk_visible := true,
        status := "Feedback cannot be empty" }], st, [])
  else
    let res := re_evaluate_features st features feedback resp
    let polls := (pollLoop feedback_messages doneAt).map fun m =>
      ({ features := "", feedback_visible := true, risk_visible := true,
         status := m } : DocYield)
    (polls ++ [{ features := res.2.1, feedback_visible := true,
                 risk_visible := true, status := "Feedback processed successfully!" }],
     res.1, res.2.2)

/-- `approve_features(features)`: stores the features into
`state.approved_features` and returns the status text plus the two
visibility updates (feedback hidden, risk section shown).  No request. -/
def approve_features (st : FeatureState) (features : String) :
    (String × Bool × Bool) × FeatureState × List Request :=
  (("Features have been approved!", false, true),
   { st with approved_features := some features }, [])

/-- One value yielded by `analyze_risks_with_status`: risk-analysis
output and status message. -/
structure RiskYield where
  output : String
  status : String
  deriving Repr, DecidableEq

/-- The fixed status list of `analyze_risks_with_status`. -/
def risk_messages : List String :=
  ["Analyzing security risks...",
   "Identifying vulnerabilities...",
   "Evaluating compliance requirements...",
   "Generating mitigation strategies...",
   "Preparing final report..."]

/-- `analyze_risks_with_status(features)`: guarded by the truthiness of
`state.approved_features`; the payload reads `state.approved_features`,
never the `features` argument.  On `RequestException` the surfaced
message appends `"\nResponse: " ++ e.response.text` when a response is
attached. -/
def analyze_risks_with_status (st : FeatureState) (features : String)
    (resp : CallResult RiskBody) (doneAt : Nat) :
    List RiskYield × FeatureState × List Request :=
  if !truthyOptStr st.approved_features then
    ([{ output := "Please approve features first before analyzing risks.",
        status := "No approved features found" }], st, [])
  else
    let req := Request.risksAnalyze st.approved_features st.srs_content
      st.project_summary
    let pre : List RiskYield :=
      { output := "", status := "Initiating risk analysis..." } ::
        (pollLoop risk_messages doneAt).map fun m =>
          ({ output := "", status := m } : RiskYield)
    match resp with
    | .requestError e respText =>
      let msg := "API Error: " ++ e ++
        (match respText with
         | some t => "\nResponse: " ++ t
         | none => "")
      (pre ++ [{ output := msg, status := "Error occurred during risk analysis" }],
       st, [req])
    | .otherError e =>
      (pre ++ [{ output := "Error: " ++ e,
                 status := "Error occurred during risk analysis" }], st, [req])
    | .ok body =>
      let ra := body.risk_analysis.getD "No risks identified"
      (pre ++ [{ output := ra, status := "Risk analysis completed successfully!" }],
       st, [req])

/-! ## Helper definitions and lemmas -/

/-- One feedback round: the inputs of a `handle_feedback_with_status`
invocation (feedback text, current features, network outcome, poll count). -/
structure FeedbackRound where
  feedback : String
  features : String
  resp : CallResult FeaturesBody
  doneAt : Nat

/-- The state after running a sequence of feedback rounds. -/
def applyFeedbackRounds (st : FeatureState) (rounds : List FeedbackRound) : FeatureState :=
  rounds.foldl
    (fun s r => (handle_feedback_with_status s r.feedback r.features r.resp r.doneAt).2.1) st

/-- Whether `needle` occurs as a contiguous substring of `hay`. -/
def containsSub (hay needle : String) : Bool :=
  (List.range (hay.data.length + 1)).any fun i => needle.data.isPrefixOf (hay.data.drop i)

theorem pollLoop_eq_take (msgs : List String) (k : Nat) : pollLoop msgs k = msgs.take k := by
  induction msgs generalizing k with
  | nil => cases k <;> rfl
  | cons m ms ih => cases k with
    | zero => rfl
    | succ k => simp [pollLoop, List.take_succ_cons, ih]

theorem prefix_append_ne_empty (p e : String) (hp : p.length ≠ 0) : (p ++ e) ≠ "" := by
  intro h
  have hl := congrArg String.length h
  simp [String.length_append] at hl
  exact hp hl.1

theorem stripEmpty_of_all_whitespace (s : String)
    (h : ∀ c ∈ s.data, c.isWhitespace) : stripEmpty s = true := by
  unfold stripEmpty
  rw [List.dropWhile_eq_nil_iff.mpr h]
  rfl

theorem handle_feedback_preserves_approved (st : FeatureState)
    (feedback features : String) (resp : CallResult FeaturesBody) (doneAt : Nat) :
    (handle_feedback_with_status st feedback features resp doneAt).2.1.approved_features
      = st.approved_features := by
  cases h : stripEmpty feedback <;> cases resp <;>
    simp [handle_feedback_with_status, re_evaluate_features, h]

theorem applyFeedbackRounds_approved (st : FeatureState) (rounds : List FeedbackRound) :
    (applyFeedbackRounds st rounds).approved_features = st.approved_features := by
  induction rounds generalizing st with
  | nil => rfl
  | cons r rs ih =>
    rw [show applyFeedbackRounds st (r :: rs)
        = applyFeedbackRounds
            ((handle_feedback_with_status st r.feedback r.features r.resp r.doneAt).2.1) rs
      from rfl, ih, handle_feedback_preserves_approved]

/-! ## Claim theorems -/

/-- C1: when no truthy `approvedFeatures` value has been set,
`analyze_risks_with_status` yields the one fixed precondition message
('Please approve features first before analyzing risks.' / 'No approved
features found'), leaves the state unchanged and issues no HTTP request. -/
theorem c1_analyze_risks_precondition (st : FeatureState) (features : String)
    (resp : CallResult RiskBody) (doneAt : Nat)
    (h : truthyOptStr st.approved_features = false) :
    analyze_risks_with_status st features resp doneAt =
      ([{ output := "Please approve features first before analyzing risks.",
          status := "No approved features found" }], st, []) := by
  simp [analyze_risks_with_status, h]

theorem c1_analyze_risks_precondition_witness :
    analyze_risks_with_status initState "f" (CallResult.ok { risk_analysis := some "r" }) 0 =
      ([{ output := "Please approve features first before analyzing risks.",
          status := "No approved features found" }], initState, []) :=
  c1_analyze_risks_precondition initState "f" (CallResult.ok { risk_analysis := some "r" }) 0 rfl

/-- C5: for feedback that is empty or all-whitespace,
`handle_feedback_with_status` yields only the local validation message,
leaves the whole session state unchanged, and issues no HTTP request. -/
theorem c5_blank_feedback_rejected_locally (st : FeatureState)
    (feedback features : String) (resp : CallResult FeaturesBody) (doneAt : Nat)
    (h : ∀ c ∈ feedback.data, c.isWhitespace) :
    handle_feedback_with_status st feedback features resp doneAt =
      ([{ features := "Please provide feedback before submitting.",
          feedback_visible := true, risk_visible := true,
          status := "Feedback cannot be empty" }], st, []) := by
  simp [handle_feedback_with_status, stripEmpty_of_all_whitespace feedback h]

theorem c5_blank_feedback_rejected_locally_witness :
    handle_feedback_with_status initState "  " "F1" (CallResult.ok { feature_details := some "X" }) 0 =
      ([{ features := "Please provide feedback before submitting.",
          feedback_visible := true, risk_visible := true,
          status := "Feedback cannot be empty" }], initState, []) :=
  c5_blank_feedback_rejected_locally initState "  " "F1"
    (CallResult.ok { feature_details := some "X" }) 0 (by decide)

/-- C6: `approve_features` issues no HTTP request, stores exactly its
input into `approved_features`, returns the hide-feedback / show-risk
updates, changes no other state field, and applied twice with the same
input leaves `approved_features` equal to that input both times. -/
theorem c6_approve_features_local_idempotent (st : FeatureState) (f : String) :
    approve_features st f =
      (("Features have been approved!", false, true),
       { srs_content := st.srs_content, project_summary := st.project_summary,
         feature_details := st.feature_details, approved_features := some f }, [])
    ∧ (approve_features st f).2.1.approved_features = some f
    ∧ (approve_features (approve_features st f).2.1 f).2.1 = (approve_features st f).2.1
    ∧ (approve_features (approve_features st f).2.1 f).2.1.approved_features = some f :=
  ⟨rfl, rfl, rfl, rfl⟩

/-- C9: approving the empty string stores `''` (falsy), so every
subsequent `analyze_risks_with_status` call still takes the
precondition-failure branch and issues no HTTP request, exactly as if no
approval had occurred. -/
theorem c9_empty_approval_does_not_unlock (st : FeatureState) (features : String)
    (resp : CallResult RiskBody) (doneAt : Nat) :
    (approve_features st "").2.1.approved_features = some ""
    ∧ analyze_risks_with_status (approve_features st "").2.1 features resp doneAt =
      ([{ output := "Please approve features first before analyzing risks.",
          status := "No approved features found" }], (approve_features st "").2.1, []) := by
  exact ⟨rfl, rfl⟩

/-- C10: when the summary call succeeds and the feature-extraction call
fails (transport/HTTP error or any other exception), the operation
returns an error string while `srs_content` and `project_summary`
already hold the freshly fetched values and only `feature_details`
(and `approved_features`) are unchanged — a partial state mutation. -/
theorem c10_partial_mutation_on_extraction_failure (st : FeatureState)
    (content pdf_path : String) (sBody : SummaryBody) (e : String)
    (respText : Option String) :
    generate_summary_and_extract_features st (Except.ok content) pdf_path
        (CallResult.ok sBody) (CallResult.requestError e respText) =
      ({ srs_content := some (sBody.srs_text.getD ""),
         project_summary := some (sBody.project_summary.getD ""),
         feature_details := st.feature_details,
         approved_features := st.approved_features },
       "API Error: " ++ e,
       [Request.summaryGenerate content (pathStem pdf_path),
        Request.featuresExtract (some (sBody.srs_text.getD ""))
          (some (sBody.project_summary.getD ""))])
    ∧ generate_summary_and_extract_features st (Except.ok content) pdf_path
        (CallResult.ok sBody) (CallResult.otherError e) =
      ({ srs_content := some (sBody.srs_text.getD ""),
         project_summary := some (sBody.project_summary.getD ""),
         feature_details := st.feature_details,
         approved_features := st.approved_features },
       "Error: " ++ e,
       [Request.summaryGenerate content (pathStem pdf_path),
        Request.featuresExtract (some (sBody.srs_text.getD ""))
          (some (sBody.project_summary.getD ""))]) :=
  ⟨rfl, rfl⟩

/-- C3: once features are approved, any sequence of later feedback rounds
leaves the approval snapshot in place, and when `analyze_risks_with_status`
proceeds past its precondition it sends exactly one request whose
`features` payload field is that snapshot — independent of the live
`feature_details` value and of the `features` argument passed to the
handler. -/
theorem c3_risk_payload_is_approval_snapshot (st : FeatureState) (f : String)
    (rounds : List FeedbackRound) (arg1 arg2 : String)
    (resp : CallResult RiskBody) (doneAt : Nat) (hf : f ≠ "") :
    (analyze_risks_with_status (applyFeedbackRounds (approve_features st f).2.1 rounds)
        arg1 resp doneAt).2.2 =
      [Request.risksAnalyze (some f)
        (applyFeedbackRounds (approve_features st f).2.1 rounds).srs_content
        (applyFeedbackRounds (approve_features st f).2.1 rounds).project_summary]
    ∧ (analyze_risks_with_status (applyFeedbackRounds (approve_features st f).2.1 rounds)
        arg1 resp doneAt).2.2 =
      (analyze_risks_with_status (applyFeedbackRounds (approve_features st f).2.1 rounds)
        arg2 resp doneAt).2.2 := by
  have happ : (applyFeedbackRounds (approve_features st f).2.1 rounds).approved_features
      = some f := by
    rw [applyFeedbackRounds_approved]
    rfl
  have hne : f.isEmpty = false := by
    cases h : f.isEmpty
    · rfl
    · exact absurd ((String.isEmpty_iff f).mp h) hf
  constructor
  · cases resp <;> simp [analyze_risks_with_status, happ, truthyOptStr, hne]
  · cases resp <;> simp [analyze_risks_with_status, happ, truthyOptStr, hne]

theorem c3_risk_payload_is_approval_snapshot_witness :
    (analyze_risks_with_status (applyFeedbackRounds (approve_features initState "F1, F2, F3").2.1
        [{ feedback := "add F4", features := "F1, F2, F3",
           resp := CallResult.ok { feature_details := some "F1, F2, F3, F4" }, doneAt := 1 }])
        "live value" (CallResult.ok { risk_analysis := some "R" }) 2).2.2 =
      [Request.risksAnalyze (some "F1, F2, F3")
        (applyFeedbackRounds (approve_features initState "F1, F2, F3").2.1
          [{ feedback := "add F4", features := "F1, F2, F3",
             resp := CallResult.ok { feature_details := some "F1, F2, F3, F4" }, doneAt := 1 }]).srs_content
        (applyFeedbackRounds (approve_features initState "F1, F2, F3").2.1
          [{ feedback := "add F4", features := "F1, F2, F3",
             resp := CallResult.ok { feature_details := some "F1, F2, F3, F4" }, doneAt := 1 }]).project_summary]
    ∧ (analyze_risks_with_status (applyFeedbackRounds (approve_features initState "F1, F2, F3").2.1
        [{ feedback := "add F4", features := "F1, F2, F3",
           resp := CallResult.ok { feature_details := some "F1, F2, F3, F4" }, doneAt := 1 }])
        "live value" (CallResult.ok { risk_analysis := some "R" }) 2).2.2 =
      (analyze_risks_with_status (applyFeedbackRounds (approve_features initState "F1, F2, F3").2.1
        [{ feedback := "add F4", features := "F1, F2, F3",
           resp := CallResult.ok { feature_details := some "F1, F2, F3, F4" }, doneAt := 1 }])
        "another live value" (CallResult.ok { risk_analysis := some "R" }) 2).2.2 :=
  c3_risk_payload_is_approval_snapshot initState "F1, F2, F3"
    [{ feedback := "add F4", features := "F1, F2, F3",
       resp := CallResult.ok { feature_details := some "F1, F2, F3, F4" }, doneAt := 1 }]
    "live value" "another live value" (CallResult.ok { risk_analysis := some "R" }) 2 (by decide)

theorem process_trace_shape (st : FeatureState) (fname : String)
    (fileRead : Except String String) (sResp : CallResult SummaryBody)
    (fResp : CallResult FeaturesBody) (k : Nat) :
    (process_documents_with_status st (some fname) fileRead sResp fResp k).1 =
      (process_messages.take k).map (fun m =>
        ({ features := "", feedback_visible := false, risk_visible := false,
           status := m } : DocYield)) ++
      [{ features := (generate_summary_and_extract_features st fileRead fname sResp fResp).2.1,
         feedback_visible := true, risk_visible := true, status := "Response Generated!" }] := by
  rw [← pollLoop_eq_take]
  rfl

theorem feedback_trace_shape (st : FeatureState) (feedback features : String)
    (resp : CallResult FeaturesBody) (k : Nat) (hfb : stripEmpty feedback = false) :
    (handle_feedback_with_status st feedback features resp k).1 =
      (feedback_messages.take k).map (fun m =>
        ({ features := "", feedback_visible := true, risk_visible := true,
           status := m } : DocYield)) ++
      [{ features := (re_evaluate_features st features feedback resp).2.1,
         feedback_visible := true, risk_visible := true,
         status := "Feedback processed successfully!" }] := by
  rw [← pollLoop_eq_take]
  simp [handle_feedback_with_status, hfb]

theorem analyze_trace_shape (st : FeatureState) (arg : String)
    (resp : CallResult RiskBody) (k : Nat)
    (happ : truthyOptStr st.approved_features = true) :
    ∃ t, (analyze_risks_with_status st arg resp k).1 =
      { output := "", status := "Initiating risk analysis..." } ::
        ((risk_messages.take k).map (fun m => ({ output := "", status := m } : RiskYield))
          ++ [t]) := by
  rw [← pollLoop_eq_take]
  cases resp with
  | ok body =>
    refine ⟨{ output := body.risk_analysis.getD "No risks identified",
              status := "Risk analysis completed successfully!" }, ?_⟩
    simp [analyze_risks_with_status, happ]
  | requestError e respText =>
    refine ⟨{ output := "API Error: " ++ e ++
        (match respText with
         | some t => "\nResponse: " ++ t
         | none => ""),
              status := "Error occurred during risk analysis" }, ?_⟩
    simp [analyze_risks_with_status, happ]
  | otherError e =>
    refine ⟨{ output := "Error: " ++ e,
              status := "Error occurred during risk analysis" }, ?_⟩
    simp [analyze_risks_with_status, happ]

/-- C4: for each of the three wrapped long-running operations, the
yielded trace is a prefix of the fixed configured message list, in
order (`take` of the number of checks that saw the worker running), of
length — and hence number of intervening waits — at most the list's
length, followed by exactly one terminal result yield, and nothing
after it. -/
theorem c4_progress_traces (st1 st2 st3 : FeatureState) (fname : String)
    (fileRead : Except String String) (sResp : CallResult SummaryBody)
    (fResp : CallResult FeaturesBody) (k1 : Nat)
    (feedback features : String) (rResp : CallResult FeaturesBody) (k2 : Nat)
    (riskArg : String) (aResp : CallResult RiskBody) (k3 : Nat)
    (hfb : stripEmpty feedback = false)
    (happ : truthyOptStr st3.approved_features = true) :
    (∃ t, (process_documents_with_status st1 (some fname) fileRead sResp fResp k1).1 =
        (process_messages.take k1).map (fun m =>
          ({ features := "", feedback_visible := false, risk_visible := false,
             status := m } : DocYield)) ++ [t]
      ∧ (process_messages.take k1).length ≤ process_messages.length)
    ∧ (∃ t, (handle_feedback_with_status st2 feedback features rResp k2).1 =
        (feedback_messages.take k2).map (fun m =>
          ({ features := "", feedback_visible := true, risk_visible := true,
             status := m } : DocYield)) ++ [t]
      ∧ (feedback_messages.take k2).length ≤ feedback_messages.length)
    ∧ (∃ t, (analyze_risks_with_status st3 riskArg aResp k3).1 =
        { output := "", status := "Initiating risk analysis..." } ::
          ((risk_messages.take k3).map (fun m => ({ output := "", status := m } : RiskYield))
            ++ [t])
      ∧ (risk_messages.take k3).length ≤ risk_messages.length) := by
  refine ⟨⟨_, process_trace_shape st1 fname fileRead sResp fResp k1, ?_⟩,
          ⟨_, feedback_trace_shape st2 feedback features rResp k2 hfb, ?_⟩, ?_⟩
  · rw [List.length_take]; exact min_le_right _ _
  · rw [List.length_take]; exact min_le_right _ _
  · obtain ⟨t, ht⟩ := analyze_trace_shape st3 riskArg aResp k3 happ
    exact ⟨t, ht, by rw [List.length_take]; exact min_le_right _ _⟩

theorem c4_progress_traces_witness :
    (∃ t, (process_documents_with_status initState (some "doc.pdf") (Except.ok "PDF")
        (CallResult.ok { srs_text := some "S", project_summary := some "P" })
        (CallResult.ok { feature_details := some "F" }) 2).1 =
        (process_messages.take 2).map (fun m =>
          ({ features := "", feedback_visible := false, risk_visible := false,
             status := m } : DocYield)) ++ [t]
      ∧ (process_messages.take 2).length ≤ process_messages.length)
    ∧ (∃ t, (handle_feedback_with_status initState "add F4" "F"
        (CallResult.ok { feature_details := some "F2" }) 7).1 =
        (feedback_messages.take 7).map (fun m =>
          ({ features := "", feedback_visible := true, risk_visible := true,
             status := m } : DocYield)) ++ [t]
      ∧ (feedback_messages.take 7).length ≤ feedback_messages.length)
    ∧ (∃ t, (analyze_risks_with_status { initState with approved_features := some "F" } "x"
        (CallResult.ok { risk_analysis := some "R" }) 3).1 =
        { output := "", status := "Initiating risk analysis..." } ::
          ((risk_messages.take 3).map (fun m => ({ output := "", status := m } : RiskYield))
            ++ [t])
      ∧ (risk_messages.take 3).length ≤ risk_messages.length) :=
  c4_progress_traces initState initState { initState with approved_features := some "F" }
    "doc.pdf" (Except.ok "PDF")
    (CallResult.ok { srs_text := some "S", project_summary := some "P" })
    (CallResult.ok { feature_details := some "F" }) 2
    "add F4" "F" (CallResult.ok { feature_details := some "F2" }) 7
    "x" (CallResult.ok { risk_analysis := some "R" }) 3 (by decide) (by decide)

theorem getLast?_cons_concat {α : Type} (x t : α) (l : List α) :
    (x :: (l ++ [t])).getLast? = some t := by
  rw [show x :: (l ++ [t]) = (x :: l) ++ [t] from rfl]
  exact List.getLast?_concat _

/-- C2 counterexample: with a non-empty uploaded document and a 2xx
extraction response carrying `feature_details = ""`, the run ends on the
success terminal ('Response Generated!', both panels revealed) with an
empty feature output — not failed, yet empty. -/
theorem c2_counterexample :
    (process_documents_with_status initState (some "doc.pdf") (Except.ok "PDF")
        (CallResult.ok { srs_text := some "S", project_summary := some "P" })
        (CallResult.ok { feature_details := some "" }) 0).1 =
      [{ features := "", feedback_visible := true, risk_visible := true,
         status := "Response Generated!" }]
    ∧ (process_documents_with_status initState (some "doc.pdf") (Except.ok "PDF")
        (CallResult.ok { srs_text := some "S", project_summary := some "P" })
        (CallResult.ok { feature_details := some "" }) 0).2.1.feature_details = some "" :=
  ⟨rfl, rfl⟩

/-- C2 (amended): for every non-empty uploaded document, provided any
`feature_details` field present in a 2xx extraction response is
non-empty, the run's single terminal yield has a non-empty features
output: extracted features on success, the fixed fallback when the field
is absent, or a populated error message on failure. -/
theorem c2_amended_terminal_nonempty (st : FeatureState) (fname : String)
    (fileRead : Except String String) (sResp : CallResult SummaryBody)
    (fResp : CallResult FeaturesBody) (doneAt : Nat)
    (hne : ∀ b s, fResp = CallResult.ok b → b.feature_details = some s → s ≠ "") :
    ∃ y : DocYield,
      (process_documents_with_status st (some fname) fileRead sResp fResp doneAt).1.getLast?
        = some y
      ∧ y.status = "Response Generated!"
      ∧ y.features ≠ "" := by
  refine ⟨{ features := (generate_summary_and_extract_features st fileRead fname sResp fResp).2.1,
            feedback_visible := true, risk_visible := true,
            status := "Response Generated!" }, ?_, rfl, ?_⟩
  · rw [process_trace_shape]
    exact List.getLast?_concat _
  · cases fileRead with
    | error e => exact prefix_append_ne_empty "Error: " e (by decide)
    | ok content =>
      cases sResp with
      | requestError e r => exact prefix_append_ne_empty "API Error: " e (by decide)
      | otherError e => exact prefix_append_ne_empty "Error: " e (by decide)
      | ok sBody =>
        cases fResp with
        | requestError e r => exact prefix_append_ne_empty "API Error: " e (by decide)
        | otherError e => exact prefix_append_ne_empty "Error: " e (by decide)
        | ok fBody =>
          obtain ⟨fd⟩ := fBody
          cases fd with
          | none =>
            show (generate_summary_and_extract_features st (Except.ok content) fname
                (CallResult.ok sBody) (CallResult.ok { feature_details := none })).2.1 ≠ ""
            rw [show (generate_summary_and_extract_features st (Except.ok content) fname
                (CallResult.ok sBody) (CallResult.ok { feature_details := none })).2.1
                = "No features extracted" from rfl]
            decide
          | some s =>
            have hs : s ≠ "" := hne { feature_details := some s } s rfl rfl
            simpa [generate_summary_and_extract_features] using hs

theorem c2_amended_terminal_nonempty_witness :
    ∃ y : DocYield,
      (process_documents_with_status initState (some "doc.pdf") (Except.ok "PDF")
          (CallResult.ok { srs_text := some "S", project_summary := some "P" })
          (CallResult.ok { feature_details := some "F1, F2" }) 1).1.getLast? = some y
      ∧ y.status = "Response Generated!"
      ∧ y.features ≠ "" :=
  c2_amended_terminal_nonempty initState "doc.pdf" (Except.ok "PDF")
    (CallResult.ok { srs_text := some "S", project_summary := some "P" })
    (CallResult.ok { feature_details := some "F1, F2" }) 1
    (by
      intro b s hb hs
      cases hb
      simp only at hs
      injection hs with h
      subst h
      decide)

/-- C7 counterexample: a failed re-evaluation call whose response body is
"BODYTEXT" surfaces only "Error in re-evaluation: boom" — the body does
not occur in the message; the summary/extraction path likewise surfaces
only "API Error: boom" (the body is printed to the console, not
returned). -/
theorem c7_counterexample :
    (re_evaluate_features initState "prev" "fb"
        (CallResult.requestError "boom" (some "BODYTEXT"))).2.1 =
      "Error in re-evaluation: boom"
    ∧ containsSub (re_evaluate_features initState "prev" "fb"
        (CallResult.requestError "boom" (some "BODYTEXT"))).2.1 "BODYTEXT" = false
    ∧ (generate_summary_and_extract_features initState (Except.ok "PDF") "doc.pdf"
        (CallResult.requestError "boom" (some "BODYTEXT"))
        (CallResult.ok { feature_details := some "F" })).2.1 = "API Error: boom"
    ∧ containsSub (generate_summary_and_extract_features initState (Except.ok "PDF") "doc.pdf"
        (CallResult.requestError "boom" (some "BODYTEXT"))
        (CallResult.ok { feature_details := some "F" })).2.1 "BODYTEXT" = false :=
  ⟨rfl, by decide, rfl, by decide⟩

/-- C7 (amended): the risk-analysis path surfaces the error text and,
when a response body is attached, appends "\nResponse: " plus the body;
the summary/extraction and re-evaluation paths surface only the error
text. -/
theorem c7_amended_error_surfacing (st1 st2 st3 : FeatureState)
    (content pdf_path prev fb arg e t : String) (rb : Option String)
    (fResp : CallResult FeaturesBody) (k : Nat)
    (happ : truthyOptStr st3.approved_features = true) :
    (generate_summary_and_extract_features st1 (Except.ok content) pdf_path
        (CallResult.requestError e rb) fResp).2.1 = "API Error: " ++ e
    ∧ (re_evaluate_features st2 prev fb (CallResult.requestError e rb)).2.1 =
        "Error in re-evaluation: " ++ e
    ∧ (analyze_risks_with_status st3 arg (CallResult.requestError e (some t)) k).1.getLast? =
        some { output := ("API Error: " ++ e) ++ ("\nResponse: " ++ t),
               status := "Error occurred during risk analysis" }
    ∧ (analyze_risks_with_status st3 arg (CallResult.requestError e none) k).1.getLast? =
        some { output := "API Error: " ++ e,
               status := "Error occurred during risk analysis" } := by
  refine ⟨rfl, rfl, ?_, ?_⟩
  · have hsh : (analyze_risks_with_status st3 arg (CallResult.requestError e (some t)) k).1 =
        { output := "", status := "Initiating risk analysis..." } ::
          ((pollLoop risk_messages k).map (fun m => ({ output := "", status := m } : RiskYield))
            ++ [{ output := ("API Error: " ++ e) ++ ("\nResponse: " ++ t),
                  status := "Error occurred during risk analysis" }]) := by
      simp [analyze_risks_with_status, happ]
    rw [hsh]
    exact getLast?_cons_concat _ _ _
  · have hsh : (analyze_risks_with_status st3 arg (CallResult.requestError e none) k).1 =
        { output := "", status := "Initiating risk analysis..." } ::
          ((pollLoop risk_messages k).map (fun m => ({ output := "", status := m } : RiskYield))
            ++ [{ output := "API Error: " ++ e,
                  status := "Error occurred during risk analysis" }]) := by
      simp [analyze_risks_with_status, happ]
    rw [hsh]
    exact getLast?_cons_concat _ _ _

theorem c7_amended_error_surfacing_witness :
    (generate_summary_and_extract_features initState (Except.ok "PDF") "doc.pdf"
        (CallResult.requestError "boom" (some "RB"))
        (CallResult.ok { feature_details := some "F" })).2.1 = "API Error: " ++ "boom"
    ∧ (re_evaluate_features initState "prev" "fb"
        (CallResult.requestError "boom" (some "RB"))).2.1 =
        "Error in re-evaluation: " ++ "boom"
    ∧ (analyze_risks_with_status { initState with approved_features := some "F" } "arg"
        (CallResult.requestError "boom" (some "BODY")) 1).1.getLast? =
        some { output := ("API Error: " ++ "boom") ++ ("\nResponse: " ++ "BODY"),
               status := "Error occurred during risk analysis" }
    ∧ (analyze_risks_with_status { initState with approved_features := some "F" } "arg"
        (CallResult.requestError "boom" none) 1).1.getLast? =
        some { output := "API Error: " ++ "boom",
               status := "Error occurred during risk analysis" } :=
  c7_amended_error_surfacing initState initState
    { initState with approved_features := some "F" }
    "PDF" "doc.pdf" "prev" "fb" "arg" "boom" "BODY" (some "RB")
    (CallResult.ok { feature_details := some "F" }) 1 (by decide)

/-- C8 counterexample: there is no 'No summary generated' fallback: with
both summary fields missing from a 2xx summary response, the operation
stores `""` in `srs_content` and `project_summary` and returns the
extracted features, not 'No summary generated'. -/
theorem c8_counterexample :
    (generate_summary_and_extract_features initState (Except.ok "PDF") "doc.pdf"
        (CallResult.ok { srs_text := none, project_summary := none })
        (CallResult.ok { feature_details := some "F" })).2.1 = "F"
    ∧ (generate_summary_and_extract_features initState (Except.ok "PDF") "doc.pdf"
        (CallResult.ok { srs_text := none, project_summary := none })
        (CallResult.ok { feature_details := some "F" })).1.srs_content = some ""
    ∧ (generate_summary_and_extract_features initState (Except.ok "PDF") "doc.pdf"
        (CallResult.ok { srs_text := none, project_summary := none })
        (CallResult.ok { feature_details := some "F" })).1.project_summary = some ""
    ∧ "F" ≠ "No summary generated" :=
  ⟨rfl, rfl, rfl, by decide⟩

/-- C8 (amended): the implemented field-missing fallbacks are: extraction
→ 'No features extracted'; re-evaluation → 'No features re-evaluated';
risk analysis → 'No risks identified'; a missing `srs_text` or
`project_summary` is replaced by the empty string, with no
'No summary generated' fallback anywhere. -/
theorem c8_amended_fallbacks (st1 st2 st3 st4 : FeatureState)
    (content1 content4 pdf1 pdf4 prev fb arg : String)
    (sBody1 : SummaryBody) (fResp4 : CallResult FeaturesBody) (k : Nat)
    (happ : truthyOptStr st3.approved_features = true) :
    (generate_summary_and_extract_features st1 (Except.ok content1) pdf1
        (CallResult.ok sBody1) (CallResult.ok { feature_details := none })).2.1 =
      "No features extracted"
    ∧ (re_evaluate_features st2 prev fb (CallResult.ok { feature_details := none })).2.1 =
      "No features re-evaluated"
    ∧ (analyze_risks_with_status st3 arg (CallResult.ok { risk_analysis := none }) k).1.getLast?
      = some { output := "No risks identified",
               status := "Risk analysis completed successfully!" }
    ∧ (generate_summary_and_extract_features st4 (Except.ok content4) pdf4
        (CallResult.ok { srs_text := none, project_summary := none }) fResp4).1.srs_content
      = some ""
    ∧ (generate_summary_and_extract_features st4 (Except.ok content4) pdf4
        (CallResult.ok { srs_text := none, project_summary := none }) fResp4).1.project_summary
      = some "" := by
  refine ⟨rfl, rfl, ?_, ?_, ?_⟩
  · have hsh : (analyze_risks_with_status st3 arg (CallResult.ok { risk_analysis := none }) k).1 =
        { output := "", status := "Initiating risk analysis..." } ::
          ((pollLoop risk_messages k).map (fun m => ({ output := "", status := m } : RiskYield))
            ++ [{ output := "No risks identified",
                  status := "Risk analysis completed successfully!" }]) := by
      simp [analyze_risks_with_status, happ]
    rw [hsh]
    exact getLast?_cons_concat _ _ _
  · cases fResp4 <;> rfl
  · cases fResp4 <;> rfl

theorem c8_amended_fallbacks_witness :
    (generate_summary_and_extract_features initState (Except.ok "P1") "a.pdf"
        (CallResult.ok { srs_text := some "S", project_summary := some "P" })
        (CallResult.ok { feature_details := none })).2.1 =
      "No features extracted"
    ∧ (re_evaluate_features initState "prev" "fb"
        (CallResult.ok { feature_details := none })).2.1 =
      "No features re-evaluated"
    ∧ (analyze_risks_with_status { initState with approved_features := some "F" } "arg"
        (CallResult.ok { risk_analysis := none }) 2).1.getLast?
      = some { output := "No risks identified",
               status := "Risk analysis completed successfully!" }
    ∧ (generate_summary_and_extract_features initState (Except.ok "P4") "b.pdf"
        (CallResult.ok { srs_text := none, project_summary := none })
        (CallResult.ok { feature_details := some "F" })).1.srs_content = some ""
    ∧ (generate_summary_and_extract_features initState (Except.ok "P4") "b.pdf"
        (CallResult.ok { srs_text := none, project_summary := none })
        (CallResult.ok { feature_details := some "F" })).1.project_summary = some "" :=
  c8_amended_fallbacks initState initState { initState with approved_features := some "F" }
    initState "P1" "P4" "a.pdf" "b.pdf" "prev" "fb" "arg"
    { srs_text := some "S", project_summary := some "P" }
    (CallResult.ok { feature_details := some "F" }) 2 (by decide)
